import Mathlib

/-!
Shallow embedding of the libtropic Arduino wrapper (class `Tropic01`,
files `src/LibtropicArduino.h` and `src/LibtropicArduino.cpp`) and of the
engine contract it delegates to, together with theorems settling the
specification claims about the session lifecycle and command dispatch.

The wrapper's own code is a thin layer: every public method forwards to a
`lt_*` function of the libtropic engine. The embedding therefore has two
levels. First, the wrapper methods are modelled parametrically in an
`Engine` of result oracles, each method returning the value the C++ code
returns together with the list of engine calls it makes. Second, for
claims about the composed behaviour (status gating, state transitions),
the engine's documented contract is modelled explicitly on a small state
type, as stated by the specification, since the engine's code is not part
of this repository's sources.
-/

namespace LibtropicArduino

/-- Session status flag read by the wrapper from `handle.l3.session_status`
(`LibtropicArduino.cpp`, line 49). `on` corresponds to `LT_SECURE_SESSION_ON`;
`off` is the closed state. -/
inductive SessionStatus where
  | on
  | off
deriving DecidableEq, Repr

/-- Model of the `lt_ret_t` result code (defined by the external libtropic
engine headers, not in this repository's sources). The wrapper only
distinguishes `LT_OK` from non-`LT_OK`; the error constructors follow the
specification's error taxonomy: a precondition failure for a missing secure
session, a local argument-validation failure, a chip-reported status code,
and a transport failure. -/
inductive LtRet where
  | ok
  | hostNoSession
  | paramErr
  | chipErr (code : Nat)
  | transportErr (code : Nat)
deriving DecidableEq, Repr

/-- The part of `lt_handle_t` the wrapper code itself inspects: only the
session status flag `l3.session_status` (`LibtropicArduino.cpp`, line 49).
All other handle contents are opaque to the wrapper. -/
structure Handle where
  session_status : SessionStatus
deriving DecidableEq, Repr

/-- One call from the wrapper into an engine (`lt_*`) function; traces of
these record exactly which collaborator operations a wrapper method invokes. -/
inductive EngineCall where
  | lt_init
  | lt_deinit
  | lt_verify_chip_and_start_secure_session
  | lt_session_abort
  | lt_ping
  | lt_ecc_key_generate
  | lt_ecc_key_store
  | lt_ecc_key_read
  | lt_ecc_key_erase
  | lt_ecc_ecdsa_sign
  | lt_ecc_eddsa_sign
  | lt_r_mem_data_write
  | lt_r_mem_data_read
  | lt_r_mem_data_erase
  | lt_mac_and_destroy
deriving DecidableEq, Repr

/-- Result oracles for the engine functions the wrapper calls: one field per
`lt_*` function, giving the result the engine would return for the handle and
the forwarded arguments. Slots, curves, indices and sizes are `Nat`; byte
buffers are `List Nat`. Out-parameters written by the engine (echo buffer,
key buffer, curve, origin, read size, MAC output) are engine outputs and are
not modelled as wrapper inputs. -/
structure Engine where
  lt_init : Handle → LtRet
  lt_deinit : Handle → LtRet
  lt_verify_chip_and_start_secure_session :
    Handle → List Nat → List Nat → Nat → LtRet
  lt_session_abort : Handle → LtRet
  lt_ping : Handle → List Nat → Nat → LtRet
  lt_ecc_key_generate : Handle → Nat → Nat → LtRet
  lt_ecc_key_store : Handle → Nat → Nat → List Nat → LtRet
  lt_ecc_key_read : Handle → Nat → Nat → LtRet
  lt_ecc_key_erase : Handle → Nat → LtRet
  lt_ecc_ecdsa_sign : Handle → Nat → List Nat → Nat → LtRet
  lt_ecc_eddsa_sign : Handle → Nat → List Nat → Nat → LtRet
  lt_r_mem_data_write : Handle → Nat → List Nat → Nat → LtRet
  lt_r_mem_data_read : Handle → Nat → Nat → LtRet
  lt_r_mem_data_erase : Handle → Nat → LtRet
  lt_mac_and_destroy : Handle → Nat → List Nat → LtRet

/-- Embedding of `Tropic01::begin` (`LibtropicArduino.cpp`, line 43):
`return lt_init(&this->handle);`. Returns the engine result and the trace of
engine calls made. -/
def Tropic01.begin (eng : Engine) (h : Handle) : LtRet × List EngineCall :=
  (eng.lt_init h, [EngineCall.lt_init])

/-- Embedding of `Tropic01::secureSessionEnd` (`LibtropicArduino.cpp`,
line 67): `return lt_session_abort(&this->handle);` — an unconditional
forward, with no status check of its own. -/
def Tropic01.secureSessionEnd (eng : Engine) (h : Handle) :
    LtRet × List EngineCall :=
  (eng.lt_session_abort h, [EngineCall.lt_session_abort])

/-- Embedding of `Tropic01::end` (`LibtropicArduino.cpp`, lines 45-60); the
source name `end` is a Lean keyword, hence the name `endTeardown`. The body
mirrors the C++: `ret_abort` is `LT_OK` unless `session_status` is on, in
which case it is the result of `secureSessionEnd()`; `lt_deinit` is then
called unconditionally; `ret_abort` is returned when it is not `LT_OK`,
otherwise `ret_deinit`. -/
def Tropic01.endTeardown (eng : Engine) (h : Handle) :
    LtRet × List EngineCall :=
  let retAbort :=
    if h.session_status = SessionStatus.on then Tropic01.secureSessionEnd eng h
    else (LtRet.ok, [])
  let retDeinit := eng.lt_deinit h
  (if retAbort.1 ≠ LtRet.ok then retAbort.1 else retDeinit,
   retAbort.2 ++ [EngineCall.lt_deinit])

/-- Embedding of `Tropic01::secureSessionStart` (`LibtropicArduino.cpp`,
lines 62-65): forwards to `lt_verify_chip_and_start_secure_session`. -/
def Tropic01.secureSessionStart (eng : Engine) (h : Handle)
    (shiPriv shiPub : List Nat) (pkeyIndex : Nat) : LtRet × List EngineCall :=
  (eng.lt_verify_chip_and_start_secure_session h shiPriv shiPub pkeyIndex,
   [EngineCall.lt_verify_chip_and_start_secure_session])

/-- Embedding of `Tropic01::ping` (`LibtropicArduino.cpp`, lines 69-72):
forwards to `lt_ping` with the outbound message and length. -/
def Tropic01.ping (eng : Engine) (h : Handle) (msgOut : List Nat)
    (msgLen : Nat) : LtRet × List EngineCall :=
  (eng.lt_ping h msgOut msgLen, [EngineCall.lt_ping])

/-- Embedding of `Tropic01::eccKeyGenerate` (`LibtropicArduino.cpp`,
lines 74-77): forwards to `lt_ecc_key_generate`. -/
def Tropic01.eccKeyGenerate (eng : Engine) (h : Handle) (slot curve : Nat) :
    LtRet × List EngineCall :=
  (eng.lt_ecc_key_generate h slot curve, [EngineCall.lt_ecc_key_generate])

/-- Embedding of `Tropic01::eccKeyStore` (`LibtropicArduino.cpp`,
lines 79-82): forwards to `lt_ecc_key_store`. -/
def Tropic01.eccKeyStore (eng : Engine) (h : Handle) (slot curve : Nat)
    (key : List Nat) : LtRet × List EngineCall :=
  (eng.lt_ecc_key_store h slot curve key, [EngineCall.lt_ecc_key_store])

/-- Embedding of `Tropic01::eccKeyRead` (`LibtropicArduino.cpp`,
lines 84-88): forwards to `lt_ecc_key_read` with the slot and the caller's
buffer capacity; the key bytes, curve and origin are engine outputs. -/
def Tropic01.eccKeyRead (eng : Engine) (h : Handle) (slot keyMaxSize : Nat) :
    LtRet × List EngineCall :=
  (eng.lt_ecc_key_read h slot keyMaxSize, [EngineCall.lt_ecc_key_read])

/-- Embedding of `Tropic01::eccKeyErase` (`LibtropicArduino.cpp`, line 90):
forwards to `lt_ecc_key_erase`. -/
def Tropic01.eccKeyErase (eng : Engine) (h : Handle) (slot : Nat) :
    LtRet × List EngineCall :=
  (eng.lt_ecc_key_erase h slot, [EngineCall.lt_ecc_key_erase])

/-- Embedding of `Tropic01::ecdsaSign` (`LibtropicArduino.cpp`,
lines 92-95): forwards to `lt_ecc_ecdsa_sign`; the signature bytes are an
engine output. -/
def Tropic01.ecdsaSign (eng : Engine) (h : Handle) (slot : Nat)
    (msg : List Nat) (msgLen : Nat) : LtRet × List EngineCall :=
  (eng.lt_ecc_ecdsa_sign h slot msg msgLen, [EngineCall.lt_ecc_ecdsa_sign])

/-- Embedding of `Tropic01::eddsaSign` (`LibtropicArduino.cpp`,
lines 97-100): forwards to `lt_ecc_eddsa_sign`; the signature bytes are an
engine output. -/
def Tropic01.eddsaSign (eng : Engine) (h : Handle) (slot : Nat)
    (msg : List Nat) (msgLen : Nat) : LtRet × List EngineCall :=
  (eng.lt_ecc_eddsa_sign h slot msg msgLen, [EngineCall.lt_ecc_eddsa_sign])

/-- Modelled from the spec: the body of `Tropic01::rMemWrite` is declared in
`LibtropicArduino.h` (line 208) but its definition is not among this
repository's sources; per the specification's delegation contract, the call
is forwarded verbatim to the engine's R-memory write. -/
def Tropic01.rMemWrite (eng : Engine) (h : Handle) (udataSlot : Nat)
    (data : List Nat) (dataSize : Nat) : LtRet × List EngineCall :=
  (eng.lt_r_mem_data_write h udataSlot data dataSize,
   [EngineCall.lt_r_mem_data_write])

/-- Modelled from the spec: the body of `Tropic01::rMemRead` is declared in
`LibtropicArduino.h` (line 222) but its definition is not among this
repository's sources; per the specification's delegation contract, the call
is forwarded verbatim to the engine's R-memory read. The bytes read and the
read size are engine outputs. -/
def Tropic01.rMemRead (eng : Engine) (h : Handle)
    (udataSlot dataMaxSize : Nat) : LtRet × List EngineCall :=
  (eng.lt_r_mem_data_read h udataSlot dataMaxSize,
   [EngineCall.lt_r_mem_data_read])

/-- Modelled from the spec: the body of `Tropic01::rMemErase` is declared in
`LibtropicArduino.h` (line 233) but its definition is not among this
repository's sources; per the specification's delegation contract, the call
is forwarded verbatim to the engine's R-memory erase. -/
def Tropic01.rMemErase (eng : Engine) (h : Handle) (udataSlot : Nat) :
    LtRet × List EngineCall :=
  (eng.lt_r_mem_data_erase h udataSlot, [EngineCall.lt_r_mem_data_erase])

/-- Modelled from the spec: the body of `Tropic01::macAndDestroy` is
declared in `LibtropicArduino.h` (line 249) but its definition is not among
this repository's sources; per the specification's delegation contract, the
call is forwarded verbatim to the engine's MAC-and-destroy step. The 32-byte
response is an engine output. -/
def Tropic01.macAndDestroy (eng : Engine) (h : Handle) (slot : Nat)
    (dataOut : List Nat) : LtRet × List EngineCall :=
  (eng.lt_mac_and_destroy h slot dataOut, [EngineCall.lt_mac_and_destroy])

/-- Concrete engine whose session abort fails with a chip error while
deinitialization succeeds; used to exercise the teardown error-priority
rule on a closed instance. -/
def engAbortFails : Engine :=
  ⟨fun _ => LtRet.ok, fun _ => LtRet.ok,
   fun _ _ _ _ => LtRet.ok, fun _ => LtRet.chipErr 3,
   fun _ _ _ => LtRet.ok, fun _ _ _ => LtRet.ok,
   fun _ _ _ _ => LtRet.ok, fun _ _ _ => LtRet.ok,
   fun _ _ => LtRet.ok, fun _ _ _ _ => LtRet.ok,
   fun _ _ _ _ => LtRet.ok, fun _ _ _ _ => LtRet.ok,
   fun _ _ _ => LtRet.ok, fun _ _ => LtRet.ok,
   fun _ _ _ => LtRet.ok⟩

/-- Concrete engine whose session abort succeeds while deinitialization
fails with a transport error; the inverse teardown scenario. -/
def engDeinitFails : Engine :=
  ⟨fun _ => LtRet.ok, fun _ => LtRet.transportErr 7,
   fun _ _ _ _ => LtRet.ok, fun _ => LtRet.ok,
   fun _ _ _ => LtRet.ok, fun _ _ _ => LtRet.ok,
   fun _ _ _ _ => LtRet.ok, fun _ _ _ => LtRet.ok,
   fun _ _ => LtRet.ok, fun _ _ _ _ => LtRet.ok,
   fun _ _ _ _ => LtRet.ok, fun _ _ _ _ => LtRet.ok,
   fun _ _ _ => LtRet.ok, fun _ _ => LtRet.ok,
   fun _ _ _ => LtRet.ok⟩

/-- C2: during `end()`, a failing session-abort step determines the returned
value regardless of the release step's outcome; when the abort step succeeds,
or is skipped because the status is already closed, the returned value is the
release step's own result. -/
theorem end_error_priority (eng : Engine) (h : Handle) :
    (h.session_status = SessionStatus.on →
      eng.lt_session_abort h ≠ LtRet.ok →
      (Tropic01.endTeardown eng h).1 = eng.lt_session_abort h) ∧
    (h.session_status = SessionStatus.on →
      eng.lt_session_abort h = LtRet.ok →
      (Tropic01.endTeardown eng h).1 = eng.lt_deinit h) ∧
    (h.session_status = SessionStatus.off →
      (Tropic01.endTeardown eng h).1 = eng.lt_deinit h) := by
  refine ⟨?_, ?_, ?_⟩ <;> intro hs
  · intro hne
    simp [Tropic01.endTeardown, Tropic01.secureSessionEnd, hs, hne]
  · intro hok
    simp [Tropic01.endTeardown, Tropic01.secureSessionEnd, hs, hok]
  · simp [Tropic01.endTeardown, hs]

/-- Witness for C2: on an open handle with `engAbortFails`, `end()` returns
the abort's chip error even though deinit succeeds; on an open handle with
`engDeinitFails`, `end()` returns the deinit's transport error; on a closed
handle, `end()` returns the deinit result. -/
theorem end_error_priority_witness :
    (Tropic01.endTeardown engAbortFails ⟨SessionStatus.on⟩).1 =
      LtRet.chipErr 3 ∧
    (Tropic01.endTeardown engDeinitFails ⟨SessionStatus.on⟩).1 =
      LtRet.transportErr 7 ∧
    (Tropic01.endTeardown engDeinitFails ⟨SessionStatus.off⟩).1 =
      LtRet.transportErr 7 :=
  ⟨(end_error_priority engAbortFails ⟨SessionStatus.on⟩).1 rfl (by decide),
   (end_error_priority engDeinitFails ⟨SessionStatus.on⟩).2.1 rfl rfl,
   (end_error_priority engDeinitFails ⟨SessionStatus.off⟩).2.2 rfl⟩

/-- C3: `end()` invokes the session-abort step exactly when the status is
open, and invokes the release step `lt_deinit` unconditionally — in
particular also after a failed abort, since the trace does not depend on the
abort's result. -/
theorem end_call_pattern (eng : Engine) (h : Handle) :
    (EngineCall.lt_session_abort ∈ (Tropic01.endTeardown eng h).2 ↔
      h.session_status = SessionStatus.on) ∧
    EngineCall.lt_deinit ∈ (Tropic01.endTeardown eng h).2 := by
  cases h with
  | mk st =>
    cases st <;>
      simp [Tropic01.endTeardown, Tropic01.secureSessionEnd]

/-- C10: `secureSessionEnd()` performs no local status check: for every
handle state it forwards unconditionally to the engine's `lt_session_abort`
and returns its result, the trace being exactly that single call. -/
theorem session_end_unconditional_forward (eng : Engine) (h : Handle) :
    Tropic01.secureSessionEnd eng h =
      (eng.lt_session_abort h, [EngineCall.lt_session_abort]) := rfl

/-- C7: each dispatcher method is a pass-through — its returned value equals
the corresponding `lt_*` engine function applied to the handle and the
forwarded arguments, and its engine-call trace is exactly one invocation of
that function (no retry, no reinterpretation). -/
theorem dispatcher_passthrough (eng : Engine) (h : Handle)
    (msgOut : List Nat) (msgLen slot curve : Nat) (key : List Nat)
    (keyMaxSize : Nat) (msg : List Nat) (sigMsgLen : Nat)
    (shiPriv shiPub : List Nat) (pkeyIndex udataSlot : Nat)
    (data : List Nat) (dataSize dataMaxSize : Nat) (dataOut : List Nat) :
    Tropic01.begin eng h = (eng.lt_init h, [EngineCall.lt_init]) ∧
    Tropic01.secureSessionStart eng h shiPriv shiPub pkeyIndex =
      (eng.lt_verify_chip_and_start_secure_session h shiPriv shiPub pkeyIndex,
       [EngineCall.lt_verify_chip_and_start_secure_session]) ∧
    Tropic01.secureSessionEnd eng h =
      (eng.lt_session_abort h, [EngineCall.lt_session_abort]) ∧
    Tropic01.ping eng h msgOut msgLen =
      (eng.lt_ping h msgOut msgLen, [EngineCall.lt_ping]) ∧
    Tropic01.eccKeyGenerate eng h slot curve =
      (eng.lt_ecc_key_generate h slot curve,
       [EngineCall.lt_ecc_key_generate]) ∧
    Tropic01.eccKeyStore eng h slot curve key =
      (eng.lt_ecc_key_store h slot curve key,
       [EngineCall.lt_ecc_key_store]) ∧
    Tropic01.eccKeyRead eng h slot keyMaxSize =
      (eng.lt_ecc_key_read h slot keyMaxSize,
       [EngineCall.lt_ecc_key_read]) ∧
    Tropic01.eccKeyErase eng h slot =
      (eng.lt_ecc_key_erase h slot, [EngineCall.lt_ecc_key_erase]) ∧
    Tropic01.ecdsaSign eng h slot msg sigMsgLen =
      (eng.lt_ecc_ecdsa_sign h slot msg sigMsgLen,
       [EngineCall.lt_ecc_ecdsa_sign]) ∧
    Tropic01.eddsaSign eng h slot msg sigMsgLen =
      (eng.lt_ecc_eddsa_sign h slot msg sigMsgLen,
       [EngineCall.lt_ecc_eddsa_sign]) ∧
    Tropic01.rMemWrite eng h udataSlot data dataSize =
      (eng.lt_r_mem_data_write h udataSlot data dataSize,
       [EngineCall.lt_r_mem_data_write]) ∧
    Tropic01.rMemRead eng h udataSlot dataMaxSize =
      (eng.lt_r_mem_data_read h udataSlot dataMaxSize,
       [EngineCall.lt_r_mem_data_read]) ∧
    Tropic01.rMemErase eng h udataSlot =
      (eng.lt_r_mem_data_erase h udataSlot,
       [EngineCall.lt_r_mem_data_erase]) ∧
    Tropic01.macAndDestroy eng h slot dataOut =
      (eng.lt_mac_and_destroy h slot dataOut,
       [EngineCall.lt_mac_and_destroy]) :=
  ⟨rfl, rfl, rfl, rfl, rfl, rfl, rfl, rfl, rfl, rfl, rfl, rfl, rfl, rfl⟩

/-- Modelled from the spec: the observable state of the composed system
(wrapper plus engine-owned handle state). The engine's own code is not among
this repository's sources; the specification describes its contract as a
session-status flag plus transport-resource initialization. -/
structure SysState where
  session_status : SessionStatus
  transportInited : Bool
deriving DecidableEq, Repr

namespace SpecEngine

/-- Modelled from the spec: the shared channel-scoped contract of every
privileged engine operation — the session-status precondition is checked
before any transport traffic; while the status is closed the operation fails
with the precondition error and performs zero transport exchanges; once the
check passes the request/response exchange runs and its outcome `exch` is
returned. The second component counts transport exchanges performed. -/
def channelScoped (s : SysState) (exch : LtRet) : LtRet × Nat :=
  if s.session_status = SessionStatus.on then (exch, 1)
  else (LtRet.hostNoSession, 0)

/-- Modelled from the spec: `lt_ping`, the channel-scoped echo exchange. -/
def lt_ping (s : SysState) (msgOut : List Nat) (msgLen : Nat)
    (exch : LtRet) : LtRet × Nat :=
  channelScoped s exch

/-- Modelled from the spec: `lt_ecc_key_generate`, channel-scoped. -/
def lt_ecc_key_generate (s : SysState) (slot curve : Nat) (exch : LtRet) :
    LtRet × Nat :=
  channelScoped s exch

/-- Modelled from the spec: `lt_ecc_key_store`, channel-scoped. -/
def lt_ecc_key_store (s : SysState) (slot curve : Nat) (key : List Nat)
    (exch : LtRet) : LtRet × Nat :=
  channelScoped s exch

/-- Modelled from the spec: `lt_ecc_key_read`, channel-scoped. -/
def lt_ecc_key_read (s : SysState) (slot keyMaxSize : Nat) (exch : LtRet) :
    LtRet × Nat :=
  channelScoped s exch

/-- Modelled from the spec: `lt_ecc_key_erase`, channel-scoped. -/
def lt_ecc_key_erase (s : SysState) (slot : Nat) (exch : LtRet) :
    LtRet × Nat :=
  channelScoped s exch

/-- Modelled from the spec: `lt_ecc_ecdsa_sign`, channel-scoped. -/
def lt_ecc_ecdsa_sign (s : SysState) (slot : Nat) (msg : List Nat)
    (msgLen : Nat) (exch : LtRet) : LtRet × Nat :=
  channelScoped s exch

/-- Modelled from the spec: `lt_ecc_eddsa_sign`, channel-scoped. -/
def lt_ecc_eddsa_sign (s : SysState) (slot : Nat) (msg : List Nat)
    (msgLen : Nat) (exch : LtRet) : LtRet × Nat :=
  channelScoped s exch

/-- Modelled from the spec: `lt_r_mem_data_write`, channel-scoped. -/
def lt_r_mem_data_write (s : SysState) (udataSlot : Nat) (data : List Nat)
    (dataSize : Nat) (exch : LtRet) : LtRet × Nat :=
  channelScoped s exch

/-- Modelled from the spec: `lt_r_mem_data_read`, channel-scoped. -/
def lt_r_mem_data_read (s : SysState) (udataSlot dataMaxSize : Nat)
    (exch : LtRet) : LtRet × Nat :=
  channelScoped s exch

/-- Modelled from the spec: `lt_r_mem_data_erase`, channel-scoped. -/
def lt_r_mem_data_erase (s : SysState) (udataSlot : Nat) (exch : LtRet) :
    LtRet × Nat :=
  channelScoped s exch

/-- Modelled from the spec: `lt_mac_and_destroy`, channel-scoped. -/
def lt_mac_and_destroy (s : SysState) (slot : Nat) (dataOut : List Nat)
    (exch : LtRet) : LtRet × Nat :=
  channelScoped s exch

/-- Modelled from the spec: `lt_init` initializes transport and context only
and never opens the secure channel — the status stays as it was (closed on
the documented call path). -/
def lt_init (s : SysState) : LtRet × SysState :=
  (LtRet.ok, ⟨s.session_status, true⟩)

/-- Modelled from the spec: `lt_deinit` releases the locally held transport
resources; it is a purely local release that succeeds and leaves the
session-status flag untouched. -/
def lt_deinit (s : SysState) : LtRet × SysState :=
  (LtRet.ok, ⟨s.session_status, false⟩)

/-- Modelled from the spec: `lt_session_abort` attempts to close the channel
and reports the attempt's outcome `abortOutcome`; locally the handle's
bookkeeping treats the channel as closed unconditionally after the attempt. -/
def lt_session_abort (s : SysState) (abortOutcome : LtRet) :
    LtRet × SysState :=
  (abortOutcome, ⟨SessionStatus.off, s.transportInited⟩)

/-- Modelled from the spec: `lt_verify_chip_and_start_secure_session` opens
the channel exactly on success — the status becomes open when the handshake
outcome is `LT_OK` and the state is left entirely unchanged on failure. -/
def lt_verify_chip_and_start_secure_session (s : SysState)
    (shiPriv shiPub : List Nat) (pkeyIndex : Nat) (outcome : LtRet) :
    LtRet × SysState :=
  if outcome = LtRet.ok then (LtRet.ok, ⟨SessionStatus.on, s.transportInited⟩)
  else (outcome, s)

end SpecEngine

namespace Sys

/-- Composed `Tropic01::begin` over the spec-modelled engine: a pass-through
to `lt_init` (`LibtropicArduino.cpp`, line 43). -/
def begin (s : SysState) : LtRet × SysState :=
  SpecEngine.lt_init s

/-- Composed `Tropic01::secureSessionStart` over the spec-modelled engine: a
pass-through to the handshake (`LibtropicArduino.cpp`, lines 62-65). -/
def secureSessionStart (s : SysState) (shiPriv shiPub : List Nat)
    (pkeyIndex : Nat) (outcome : LtRet) : LtRet × SysState :=
  SpecEngine.lt_verify_chip_and_start_secure_session s shiPriv shiPub
    pkeyIndex outcome

/-- Composed `Tropic01::secureSessionEnd` over the spec-modelled engine: an
unconditional pass-through to `lt_session_abort` (`LibtropicArduino.cpp`,
line 67). -/
def secureSessionEnd (s : SysState) (abortOutcome : LtRet) :
    LtRet × SysState × List EngineCall :=
  let (r, s') := SpecEngine.lt_session_abort s abortOutcome
  (r, s', [EngineCall.lt_session_abort])

/-- Composed `Tropic01::end` over the spec-modelled engine, mirroring
`LibtropicArduino.cpp`, lines 45-60: the abort step runs only when the
status is on, `lt_deinit` runs unconditionally, and a non-`LT_OK` abort
result takes priority over the deinit result. -/
def endTeardown (s : SysState) (abortOutcome : LtRet) :
    LtRet × SysState × List EngineCall :=
  let a :=
    if s.session_status = SessionStatus.on then secureSessionEnd s abortOutcome
    else (LtRet.ok, s, [])
  let (rd, s2) := SpecEngine.lt_deinit a.2.1
  (if a.1 ≠ LtRet.ok then a.1 else rd, s2, a.2.2 ++ [EngineCall.lt_deinit])

/-- Composed `Tropic01::ping` over the spec-modelled engine. -/
def ping (s : SysState) (msgOut : List Nat) (msgLen : Nat) (exch : LtRet) :
    LtRet × Nat :=
  SpecEngine.lt_ping s msgOut msgLen exch

/-- Composed `Tropic01::eccKeyGenerate` over the spec-modelled engine. -/
def eccKeyGenerate (s : SysState) (slot curve : Nat) (exch : LtRet) :
    LtRet × Nat :=
  SpecEngine.lt_ecc_key_generate s slot curve exch

/-- Composed `Tropic01::eccKeyStore` over the spec-modelled engine. -/
def eccKeyStore (s : SysState) (slot curve : Nat) (key : List Nat)
    (exch : LtRet) : LtRet × Nat :=
  SpecEngine.lt_ecc_key_store s slot curve key exch

/-- Composed `Tropic01::eccKeyRead` over the spec-modelled engine. -/
def eccKeyRead (s : SysState) (slot keyMaxSize : Nat) (exch : LtRet) :
    LtRet × Nat :=
  SpecEngine.lt_ecc_key_read s slot keyMaxSize exch

/-- Composed `Tropic01::eccKeyErase` over the spec-modelled engine. -/
def eccKeyErase (s : SysState) (slot : Nat) (exch : LtRet) : LtRet × Nat :=
  SpecEngine.lt_ecc_key_erase s slot exch

/-- Composed `Tropic01::ecdsaSign` over the spec-modelled engine. -/
def ecdsaSign (s : SysState) (slot : Nat) (msg : List Nat) (msgLen : Nat)
    (exch : LtRet) : LtRet × Nat :=
  SpecEngine.lt_ecc_ecdsa_sign s slot msg msgLen exch

/-- Composed `Tropic01::eddsaSign` over the spec-modelled engine. -/
def eddsaSign (s : SysState) (slot : Nat) (msg : List Nat) (msgLen : Nat)
    (exch : LtRet) : LtRet × Nat :=
  SpecEngine.lt_ecc_eddsa_sign s slot msg msgLen exch

/-- Composed `Tropic01::rMemWrite` over the spec-modelled engine. -/
def rMemWrite (s : SysState) (udataSlot : Nat) (data : List Nat)
    (dataSize : Nat) (exch : LtRet) : LtRet × Nat :=
  SpecEngine.lt_r_mem_data_write s udataSlot data dataSize exch

/-- Composed `Tropic01::rMemRead` over the spec-modelled engine. -/
def rMemRead (s : SysState) (udataSlot dataMaxSize : Nat) (exch : LtRet) :
    LtRet × Nat :=
  SpecEngine.lt_r_mem_data_read s udataSlot dataMaxSize exch

/-- Composed `Tropic01::rMemErase` over the spec-modelled engine. -/
def rMemErase (s : SysState) (udataSlot : Nat) (exch : LtRet) :
    LtRet × Nat :=
  SpecEngine.lt_r_mem_data_erase s udataSlot exch

/-- Composed `Tropic01::macAndDestroy` over the spec-modelled engine. -/
def macAndDestroy (s : SysState) (slot : Nat) (dataOut : List Nat)
    (exch : LtRet) : LtRet × Nat :=
  SpecEngine.lt_mac_and_destroy s slot dataOut exch

end Sys

/-- C1: while the session status is closed, every channel-scoped dispatcher
operation (ping, key generate/store/read/erase, both signature schemes,
R-memory write/read/erase, MAC-and-destroy) returns the precondition error
and performs zero transport exchanges, whatever outcome the exchange would
have had. -/
theorem channel_ops_closed_reject (s : SysState) (exch : LtRet)
    (msgOut : List Nat) (msgLen slot curve : Nat) (key : List Nat)
    (keyMaxSize : Nat) (msg : List Nat) (sigMsgLen udataSlot : Nat)
    (data : List Nat) (dataSize dataMaxSize : Nat) (dataOut : List Nat)
    (hs : s.session_status = SessionStatus.off) :
    Sys.ping s msgOut msgLen exch = (LtRet.hostNoSession, 0) ∧
    Sys.eccKeyGenerate s slot curve exch = (LtRet.hostNoSession, 0) ∧
    Sys.eccKeyStore s slot curve key exch = (LtRet.hostNoSession, 0) ∧
    Sys.eccKeyRead s slot keyMaxSize exch = (LtRet.hostNoSession, 0) ∧
    Sys.eccKeyErase s slot exch = (LtRet.hostNoSession, 0) ∧
    Sys.ecdsaSign s slot msg sigMsgLen exch = (LtRet.hostNoSession, 0) ∧
    Sys.eddsaSign s slot msg sigMsgLen exch = (LtRet.hostNoSession, 0) ∧
    Sys.rMemWrite s udataSlot data dataSize exch =
      (LtRet.hostNoSession, 0) ∧
    Sys.rMemRead s udataSlot dataMaxSize exch = (LtRet.hostNoSession, 0) ∧
    Sys.rMemErase s udataSlot exch = (LtRet.hostNoSession, 0) ∧
    Sys.macAndDestroy s slot dataOut exch = (LtRet.hostNoSession, 0) := by
  simp [Sys.ping, Sys.eccKeyGenerate, Sys.eccKeyStore, Sys.eccKeyRead,
    Sys.eccKeyErase, Sys.ecdsaSign, Sys.eddsaSign, Sys.rMemWrite,
    Sys.rMemRead, Sys.rMemErase, Sys.macAndDestroy, SpecEngine.lt_ping,
    SpecEngine.lt_ecc_key_generate, SpecEngine.lt_ecc_key_store,
    SpecEngine.lt_ecc_key_read, SpecEngine.lt_ecc_key_erase,
    SpecEngine.lt_ecc_ecdsa_sign, SpecEngine.lt_ecc_eddsa_sign,
    SpecEngine.lt_r_mem_data_write, SpecEngine.lt_r_mem_data_read,
    SpecEngine.lt_r_mem_data_erase, SpecEngine.lt_mac_and_destroy,
    SpecEngine.channelScoped, hs]

/-- Witness for C1: at the concrete closed state, with an exchange that
would have succeeded, ping and key-erase (as representatives instantiated
from the general theorem) reject with the precondition error and zero
transport exchanges. -/
theorem channel_ops_closed_reject_witness :
    Sys.ping ⟨SessionStatus.off, true⟩ [1, 2] 2 LtRet.ok =
      (LtRet.hostNoSession, 0) ∧
    Sys.eccKeyErase ⟨SessionStatus.off, true⟩ 0 LtRet.ok =
      (LtRet.hostNoSession, 0) :=
  ⟨(channel_ops_closed_reject ⟨SessionStatus.off, true⟩ LtRet.ok [1, 2] 2 0 0
      [] 0 [] 0 0 [] 0 0 [] rfl).1,
   (channel_ops_closed_reject ⟨SessionStatus.off, true⟩ LtRet.ok [1, 2] 2 0 0
      [] 0 [] 0 0 [] 0 0 [] rfl).2.2.2.2.1⟩

/-- C4: from a closed state, a successful `secureSessionStart` leaves the
status reading open, and any failing `secureSessionStart` leaves the whole
state exactly as it was (no partial state change). -/
theorem session_start_state_transition (s : SysState)
    (shiPriv shiPub : List Nat) (pkeyIndex : Nat) (outcome : LtRet)
    (hs : s.session_status = SessionStatus.off) :
    ((Sys.secureSessionStart s shiPriv shiPub pkeyIndex outcome).1 =
        LtRet.ok →
      (Sys.secureSessionStart s shiPriv shiPub pkeyIndex
          outcome).2.session_status = SessionStatus.on) ∧
    ((Sys.secureSessionStart s shiPriv shiPub pkeyIndex outcome).1 ≠
        LtRet.ok →
      (Sys.secureSessionStart s shiPriv shiPub pkeyIndex outcome).2 = s) := by
  by_cases hok : outcome = LtRet.ok <;>
    simp [Sys.secureSessionStart,
      SpecEngine.lt_verify_chip_and_start_secure_session, hok]

/-- Witness for C4: from the concrete closed state, a successful handshake
reads back open, and a chip-error handshake leaves the state unchanged. -/
theorem session_start_state_transition_witness :
    (Sys.secureSessionStart ⟨SessionStatus.off, true⟩ [] [] 0
        LtRet.ok).2.session_status = SessionStatus.on ∧
    (Sys.secureSessionStart ⟨SessionStatus.off, true⟩ [] [] 0
        (LtRet.chipErr 2)).2 = ⟨SessionStatus.off, true⟩ :=
  ⟨(session_start_state_transition ⟨SessionStatus.off, true⟩ [] [] 0
      LtRet.ok rfl).1 rfl,
   (session_start_state_transition ⟨SessionStatus.off, true⟩ [] [] 0
      (LtRet.chipErr 2) rfl).2 (by decide)⟩

/-- C6: from any closed state, `begin()` keeps the status closed; an
`end()` immediately after never invokes the session abort, and a repeated
`end()` after the first returns the same result, reaches the same state, and
again never invokes the session abort — idempotent teardown. -/
theorem begin_end_idempotent (s : SysState) (aOut aOut2 : LtRet)
    (hs : s.session_status = SessionStatus.off) :
    (Sys.begin s).2.session_status = SessionStatus.off ∧
    EngineCall.lt_session_abort ∉
      (Sys.endTeardown (Sys.begin s).2 aOut).2.2 ∧
    (Sys.endTeardown (Sys.endTeardown (Sys.begin s).2 aOut).2.1 aOut2).1 =
      (Sys.endTeardown (Sys.begin s).2 aOut).1 ∧
    (Sys.endTeardown (Sys.endTeardown (Sys.begin s).2 aOut).2.1 aOut2).2.1 =
      (Sys.endTeardown (Sys.begin s).2 aOut).2.1 ∧
    EngineCall.lt_session_abort ∉
      (Sys.endTeardown
        (Sys.endTeardown (Sys.begin s).2 aOut).2.1 aOut2).2.2 := by
  simp [Sys.begin, Sys.endTeardown, Sys.secureSessionEnd,
    SpecEngine.lt_init, SpecEngine.lt_deinit, SpecEngine.lt_session_abort,
    hs]

/-- Witness for C6: at the concrete fresh state, after `begin()` the status
is still closed, the first `end()` makes no abort call, and the second
`end()` agrees with the first in result and state even when the hypothetical
abort outcomes differ. -/
theorem begin_end_idempotent_witness :
    (Sys.begin ⟨SessionStatus.off, false⟩).2.session_status =
      SessionStatus.off ∧
    EngineCall.lt_session_abort ∉
      (Sys.endTeardown (Sys.begin ⟨SessionStatus.off, false⟩).2
        (LtRet.chipErr 1)).2.2 ∧
    (Sys.endTeardown
      (Sys.endTeardown (Sys.begin ⟨SessionStatus.off, false⟩).2
        (LtRet.chipErr 1)).2.1 LtRet.ok).1 =
      (Sys.endTeardown (Sys.begin ⟨SessionStatus.off, false⟩).2
        (LtRet.chipErr 1)).1 := by
  have h := begin_end_idempotent ⟨SessionStatus.off, false⟩ (LtRet.chipErr 1)
    LtRet.ok rfl
  exact ⟨h.1, h.2.1, h.2.2.1⟩

/-- An action the destructor of `Tropic01` could take that is visible to the
session-lifecycle model: a call to the teardown method `end()`. -/
inductive DtorAction where
  | callEnd
deriving DecidableEq, Repr

/-- Embedding of the destructor of `Tropic01`. The class declaration
(`LibtropicArduino.h`, lines 24-255) declares a constructor, deleted
copy/move operations and the public methods, but no destructor, and the
implementation file defines none; the implicitly-defined destructor only
destroys the plain-struct members `device`, `cryptoCtx` and `handle` and in
particular performs no call to `end()`. Its action list is therefore empty. -/
def Tropic01.destructorActions : List DtorAction := []

/-- Counterexample to C5: the destructor does not invoke `end()` exactly
once — the implicitly-defined destructor of `Tropic01` makes no `end()` call
at all, so its `end()`-call count is not one. -/
theorem destructor_calls_end_once_false :
    ¬ List.count DtorAction.callEnd Tropic01.destructorActions = 1 := by
  decide

/-- C5 as amended: destruction of the host object performs no teardown call
at all — the implicitly-defined destructor never invokes `end()` — while the
teardown (release step included) exists only as the explicit `end()` method,
whose trace always contains the resource-release call. -/
theorem destructor_no_implicit_teardown :
    List.count DtorAction.callEnd Tropic01.destructorActions = 0 ∧
    ∀ (eng : Engine) (h : Handle),
      EngineCall.lt_deinit ∈ (Tropic01.endTeardown eng h).2 :=
  ⟨rfl, fun eng h => by simp [Tropic01.endTeardown]⟩

/-- The operations of the external interface of `Tropic01`, one constructor
per public method declared in `LibtropicArduino.h` (the C++ name `end` is
rendered `endOp`). -/
inductive ExposedOp where
  | begin
  | endOp
  | secureSessionStart
  | secureSessionEnd
  | ping
  | eccKeyGenerate
  | eccKeyStore
  | eccKeyRead
  | eccKeyErase
  | ecdsaSign
  | eddsaSign
  | rMemWrite
  | rMemRead
  | rMemErase
  | macAndDestroy
deriving DecidableEq, Repr

/-- All operations of the external interface, listed. -/
def allOps : List ExposedOp :=
  [ExposedOp.begin, ExposedOp.endOp, ExposedOp.secureSessionStart,
   ExposedOp.secureSessionEnd, ExposedOp.ping, ExposedOp.eccKeyGenerate,
   ExposedOp.eccKeyStore, ExposedOp.eccKeyRead, ExposedOp.eccKeyErase,
   ExposedOp.ecdsaSign, ExposedOp.eddsaSign, ExposedOp.rMemWrite,
   ExposedOp.rMemRead, ExposedOp.rMemErase, ExposedOp.macAndDestroy]

/-- The interface-level name of each exposed operation, in the vocabulary
the specification uses for the operation list. -/
def opName : ExposedOp → String
  | ExposedOp.begin => "begin"
  | ExposedOp.endOp => "end"
  | ExposedOp.secureSessionStart => "secureSessionStart"
  | ExposedOp.secureSessionEnd => "secureSessionEnd"
  | ExposedOp.ping => "ping"
  | ExposedOp.eccKeyGenerate => "key-generate"
  | ExposedOp.eccKeyStore => "key-store"
  | ExposedOp.eccKeyRead => "key-read"
  | ExposedOp.eccKeyErase => "key-erase"
  | ExposedOp.ecdsaSign => "sign-ecdsa"
  | ExposedOp.eddsaSign => "sign-eddsa"
  | ExposedOp.rMemWrite => "memory-write"
  | ExposedOp.rMemRead => "memory-read"
  | ExposedOp.rMemErase => "memory-erase"
  | ExposedOp.macAndDestroy => "mac-and-destroy"

/-- The operation names the specification requires the external interface to
expose: begin, end, session start/end, ping, the four key operations, the
two signature schemes, the three memory operations and the MAC-and-destroy
step. -/
def specOpNames : List String :=
  ["begin", "end", "secureSessionStart", "secureSessionEnd", "ping",
   "key-generate", "key-store", "key-read", "key-erase", "sign-ecdsa",
   "sign-eddsa", "memory-write", "memory-read", "memory-erase",
   "mac-and-destroy"]

/-- Argument record bundling every caller-supplied input any exposed
operation takes, so that one total dispatch function can cover the whole
interface. -/
structure OpArgs where
  msgOut : List Nat
  msgLen : Nat
  slot : Nat
  curve : Nat
  key : List Nat
  keyMaxSize : Nat
  msg : List Nat
  sigMsgLen : Nat
  shiPriv : List Nat
  shiPub : List Nat
  pkeyIndex : Nat
  udataSlot : Nat
  data : List Nat
  dataSize : Nat
  dataMaxSize : Nat
  dataOut : List Nat

/-- Total dispatch over the external interface: each exposed operation maps
to its implemented method from the embedding above, applied to the arguments
it consumes. Totality of this function is the formal counterpart of every
interface operation being implemented and callable. -/
def opResult (op : ExposedOp) (eng : Engine) (h : Handle) (a : OpArgs) :
    LtRet × List EngineCall :=
  match op with
  | ExposedOp.begin => Tropic01.begin eng h
  | ExposedOp.endOp => Tropic01.endTeardown eng h
  | ExposedOp.secureSessionStart =>
      Tropic01.secureSessionStart eng h a.shiPriv a.shiPub a.pkeyIndex
  | ExposedOp.secureSessionEnd => Tropic01.secureSessionEnd eng h
  | ExposedOp.ping => Tropic01.ping eng h a.msgOut a.msgLen
  | ExposedOp.eccKeyGenerate => Tropic01.eccKeyGenerate eng h a.slot a.curve
  | ExposedOp.eccKeyStore => Tropic01.eccKeyStore eng h a.slot a.curve a.key
  | ExposedOp.eccKeyRead => Tropic01.eccKeyRead eng h a.slot a.keyMaxSize
  | ExposedOp.eccKeyErase => Tropic01.eccKeyErase eng h a.slot
  | ExposedOp.ecdsaSign => Tropic01.ecdsaSign eng h a.slot a.msg a.sigMsgLen
  | ExposedOp.eddsaSign => Tropic01.eddsaSign eng h a.slot a.msg a.sigMsgLen
  | ExposedOp.rMemWrite =>
      Tropic01.rMemWrite eng h a.udataSlot a.data a.dataSize
  | ExposedOp.rMemRead => Tropic01.rMemRead eng h a.udataSlot a.dataMaxSize
  | ExposedOp.rMemErase => Tropic01.rMemErase eng h a.udataSlot
  | ExposedOp.macAndDestroy =>
      Tropic01.macAndDestroy eng h a.slot a.dataOut

/-- C8: every operation name of the specified external interface is the name
of one of the modelled exposed operations, and every exposed operation is
implemented and callable — the total dispatch gives it a behaviour that
reaches the engine (a nonempty engine-call trace). -/
theorem interface_ops_exposed :
    (specOpNames.all fun n => (allOps.map opName).contains n) = true ∧
    ∀ (op : ExposedOp) (eng : Engine) (h : Handle) (a : OpArgs),
      0 < (opResult op eng h a).2.length := by
  refine ⟨by decide, ?_⟩
  intro op eng h a
  cases op <;>
    simp [opResult, Tropic01.begin, Tropic01.endTeardown,
      Tropic01.secureSessionStart, Tropic01.secureSessionEnd, Tropic01.ping,
      Tropic01.eccKeyGenerate, Tropic01.eccKeyStore, Tropic01.eccKeyRead,
      Tropic01.eccKeyErase, Tropic01.ecdsaSign, Tropic01.eddsaSign,
      Tropic01.rMemWrite, Tropic01.rMemRead, Tropic01.rMemErase,
      Tropic01.macAndDestroy]

/-- A constructor parameter of `Tropic01`, by name, with whether the
signature supplies a default argument for it. -/
structure CtorParam where
  name : String
  hasDefault : Bool
deriving DecidableEq, Repr

/-- Constructor parameter list as declared in `LibtropicArduino.h`, lines
39-49, with the conditionally compiled parameters (`intGpioPin` under
`LT_USE_INT_PIN`, `l3Buff`/`l3BuffLen` under `LT_SEPARATE_L3_BUFF`)
included. Default arguments exist for `spi` (the default SPI instance) and
`spiSettings` (the tested settings) only; the declaration has no PRNG-seed
parameter. -/
def ctorDeclaredParams : List CtorParam :=
  [⟨"spiCSPin", false⟩, ⟨"intGpioPin", false⟩, ⟨"l3Buff", false⟩,
   ⟨"l3BuffLen", false⟩, ⟨"spi", true⟩, ⟨"spiSettings", true⟩]

/-- Constructor parameter list of the definition in `LibtropicArduino.cpp`,
lines 11-21, where `rngSeed` appears between the buffer parameters and
`spi`. A definition's parameters carry no default arguments in C++, and no
declaration supplies a default for `rngSeed`. -/
def ctorDefinitionParams : List CtorParam :=
  [⟨"spiCSPin", false⟩, ⟨"intGpioPin", false⟩, ⟨"l3Buff", false⟩,
   ⟨"l3BuffLen", false⟩, ⟨"rngSeed", false⟩, ⟨"spi", false⟩,
   ⟨"spiSettings", false⟩]

/-- The constructor's caller-supplied values; pins, the bus handle and the
timing profile are opaque identifiers, the separate L3 buffer is a byte
list. -/
structure CtorArgs where
  spiCSPin : Nat
  intGpioPin : Nat
  l3Buff : List Nat
  l3BuffLen : Nat
  rngSeed : Nat
  spi : Nat
  spiSettings : Nat

/-- The device-binding record `lt_dev_arduino_t` as the constructor fills it
(`LibtropicArduino.cpp`, lines 23-30): chip-select pin, interrupt pin, SPI
settings, PRNG seed and the SPI bus handle. -/
structure Device where
  spi_cs_pin : Nat
  int_gpio_pin : Nat
  spi_settings : Nat
  rng_seed : Nat
  spi : Nat
deriving DecidableEq, Repr

/-- What the constructor establishes: the filled device binding plus the
separate L3 buffer wired into the handle (`LibtropicArduino.cpp`, lines
37-40). -/
structure ConstructedState where
  device : Device
  l3Buff : List Nat
  l3BuffLen : Nat
deriving DecidableEq, Repr

/-- Embedding of the constructor body `Tropic01::Tropic01`
(`LibtropicArduino.cpp`, lines 11-41): copies each argument into the device
record and wires the separate L3 buffer and its length into the handle. -/
def Tropic01.construct (a : CtorArgs) : ConstructedState :=
  ⟨⟨a.spiCSPin, a.intGpioPin, a.spiSettings, a.rngSeed, a.spi⟩,
   a.l3Buff, a.l3BuffLen⟩

/-- Counterexample to C9: no constructor signature of `Tropic01` gives the
PRNG seed a default value — the header declaration has no seed parameter at
all, and in the defining signature the seed parameter carries no default —
so construction does not default the seed to a runtime random value. -/
theorem ctor_seed_default_false :
    (ctorDeclaredParams.all fun p => !(p.name == "rngSeed")) = true ∧
    ((ctorDeclaredParams ++ ctorDefinitionParams).all
      fun p => !(p.name == "rngSeed" && p.hasDefault)) = true := by
  decide

/-- C9 as amended: the defining constructor signature takes the PRNG seed as
a required parameter with no default, and construction stores the seed —
together with the chip-select pin, interrupt pin, bus handle, bus timing
profile and the externally-owned buffer with its length — into the
immutable device binding and handle wiring. -/
theorem ctor_seed_required_and_stored :
    ("rngSeed" ∈ ctorDefinitionParams.map CtorParam.name) ∧
    (ctorDefinitionParams.all fun p => !p.hasDefault) = true ∧
    ∀ a : CtorArgs,
      (Tropic01.construct a).device.rng_seed = a.rngSeed ∧
      (Tropic01.construct a).device.spi_cs_pin = a.spiCSPin ∧
      (Tropic01.construct a).device.int_gpio_pin = a.intGpioPin ∧
      (Tropic01.construct a).device.spi_settings = a.spiSettings ∧
      (Tropic01.construct a).device.spi = a.spi ∧
      (Tropic01.construct a).l3Buff = a.l3Buff ∧
      (Tropic01.construct a).l3BuffLen = a.l3BuffLen :=
  ⟨by decide, by decide,
   fun a => ⟨rfl, rfl, rfl, rfl, rfl, rfl, rfl⟩⟩

end LibtropicArduino
